import Mathlib

/-!
Verification of the intent-compilation engine of the DrawingExam backend
(src/backend/main.py, function calculate_geometry) against its
natural-language specification.

The embedding models the dynamic JSON values the function receives with the
inductive type Val (numbers, strings, lists), the emitted drawing elements
with Element, and the whole per-request computation, including Python's
exception semantics, with explicit Except-style plumbing: each intent branch
returns the list of elements appended so far, an optional explanation
override, and an optional uncaught exception; the surrounding try/except of
the source is the final match that turns an exception into the
"계산 오류: ..." explanation while keeping the elements appended before the
fault.

Numeric idealization: Python floats are modeled as exact rationals.  The one
irrational constant of the source, math.sqrt(3), is modeled by the exact
value of the IEEE-754 double that math.sqrt(3) evaluates to,
3900231685776981 / 2^51, so the model stays computable; rounding of the
intermediate float operations (relative error about 1e-16) is not modeled.
Python round(x, 6) is modeled exactly, including its round-half-to-even tie
rule.  String-to-float coercion (Python float("3")) is modeled as a
coercion failure; no claim exercises numeric strings.
-/

/-- A JSON-ish dynamic value, as received in the `data` dictionary of an
intent command.  (Python booleans, None and nested dicts are not modeled;
no claim needs them.) -/
inductive Val where
  | num (q : ℚ)
  | str (s : String)
  | vlist (l : List Val)
deriving Inhabited

/-- An entry of an element's `parents` list: the source declares
`parents: List[Union[float, str]]`. -/
inductive PVal where
  | num (q : ℚ)
  | str (s : String)
deriving DecidableEq, Inhabited

/-- One drawable element of the output scene graph, mirroring the dicts the
source appends to `result['elements']` (and the GeometryElement model). -/
structure Element where
  id : String
  type : String
  parents : List PVal
  props : List (String × Val)
deriving Inhabited

/-- The value of `calculate_geometry`: the source's
`result = {'elements': [...], 'explanation': ...}` dictionary. -/
structure GeoResult where
  elements : List Element
  explanation : String
deriving Inhabited

/-- The input command dictionary: `command.get('intent', '')`,
`command.get('data', {})`, `command.get('explanation', '')`. -/
structure Command where
  intent : String
  data : List (String × Val)
  explanation : String

/-- A Python exception reaching the try/except boundary.  Only the kind is
modeled; `msg` is a stand-in for Python's message text (no claim depends on
the exact text). -/
inductive PyErr where
  | typeError
  | indexError
  | valueError
deriving DecidableEq

def PyErr.msg : PyErr → String
  | .typeError => "TypeError"
  | .indexError => "IndexError"
  | .valueError => "ValueError"

/-- `d.get(k, dflt)` on the data dictionary. -/
def dget (d : List (String × Val)) (k : String) (dflt : Val) : Val :=
  match d.lookup k with
  | some v => v
  | none => dflt

/-- Python truthiness of a modeled value (`if not names:`). -/
def Val.truthy : Val → Bool
  | .num q => q != 0
  | .str s => s != ""
  | .vlist l => !l.isEmpty

/-- `float(v)`: numbers coerce to themselves; everything else is modeled as
a coercion failure (numeric strings, which Python would accept, are not
modeled; no claim uses them). -/
def pyFloat : Val → Except PyErr ℚ
  | .num q => .ok q
  | .str _ => .error .typeError
  | .vlist _ => .error .typeError

/-- `v[i]` for the modeled values: only lists are indexable. -/
def pyIdx (v : Val) (i : ℕ) : Except PyErr Val :=
  match v with
  | .vlist l =>
      match l.get? i with
      | some x => .ok x
      | none => .error .indexError
  | _ => .error .typeError

/-- Iterating a value (`for x in v`): only lists are iterable here. -/
def pyElems (v : Val) : Except PyErr (List Val) :=
  match v with
  | .vlist l => .ok l
  | _ => .error .typeError

/-- Textual form of a value as used by the f-strings of the source
(`f'p{name}'`).  For strings it is the string itself, which is the only
case any claim pins down; for other values it is an injective stand-in for
Python's str(). -/
def Val.pyStr : Val → String
  | .str s => s
  | .num q => toString q
  | .vlist _ => "[...]"

/-- Round half to even on rationals, the tie rule of Python round(). -/
def rhe (q : ℚ) : ℤ :=
  if q - ⌊q⌋ < 1/2 then ⌊q⌋
  else if 1/2 < q - ⌊q⌋ then ⌊q⌋ + 1
  else if ⌊q⌋ % 2 = 0 then ⌊q⌋ else ⌊q⌋ + 1

/-- Python `round(x, 6)`, modeled exactly on rationals. -/
def round6 (q : ℚ) : ℚ := (rhe (q * 10^6) : ℚ) / 10^6

/-- The exact value of the IEEE-754 double produced by Python's
math.sqrt(3): the model's stand-in for the base·√3/2 height computation of
the equilateral branch. -/
def sqrt3d : ℚ := 3900231685776981 / 2^51

/-- Outcome of one intent branch of the try block: elements appended before
returning or faulting, an optional overwrite of the explanation, and the
exception that escaped the branch, if any. -/
structure BranchOut where
  els : List Element
  expl? : Option String
  err? : Option PyErr

/-- Runs a fallible step that happens before any element is appended. -/
def tryStep (x : Except PyErr α) (k : α → BranchOut) : BranchOut :=
  match x with
  | .error e => ⟨[], none, some e⟩
  | .ok a => k a

/-- `float(v[0]), float(v[1])` in order, as the source coerces coordinate
pairs. -/
def pairFloats (v : Val) : Except PyErr (ℚ × ℚ) := do
  let x ← pyIdx v 0
  let fx ← pyFloat x
  let y ← pyIdx v 1
  let fy ← pyFloat y
  return (fx, fy)

/-- A point element as the source appends it, with coordinates already
computed (rounded or not, per branch). -/
def mkPt (name : Val) (x y : ℚ) : Element :=
  ⟨"p" ++ name.pyStr, "point", [.num x, .num y], [("name", name)]⟩

/-- A segment element `s{a}{b}` between two named points. -/
def mkSeg (a b : String) : Element :=
  ⟨"s" ++ a ++ b, "segment", [.str ("p" ++ a), .str ("p" ++ b)], []⟩

section Branches

/-- Branch for create_point: one point at the raw float coordinates (the
source does not round them). -/
def calcPoint (data : List (String × Val)) : BranchOut :=
  let x := dget data "x" (.num 0)
  let y := dget data "y" (.num 0)
  let name := dget data "name" (.str "P")
  tryStep (pyFloat x) fun fx =>
  tryStep (pyFloat y) fun fy =>
  ⟨[⟨"p" ++ name.pyStr, "point", [.num fx, .num fy], [("name", name)]⟩], none, none⟩

/-- The three points and three boundary segments shared by every triangle
sub-branch; coordinates are rounded to 6 fractional digits.  The source's
loop over the fixed name list ['A','B','C'] is unrolled. -/
def triElems (p1 p2 p3 : ℚ × ℚ) : List Element :=
  [ mkPt (.str "A") (round6 p1.1) (round6 p1.2)
  , mkPt (.str "B") (round6 p2.1) (round6 p2.2)
  , mkPt (.str "C") (round6 p3.1) (round6 p3.2)
  , mkSeg "A" "B", mkSeg "B" "C", mkSeg "C" "A" ]

/-- Branch for create_triangle: base and anchor are coerced first, then the
type dispatch chooses the vertex formulas; all appends are infallible. -/
def calcTriangle (data : List (String × Val)) : BranchOut :=
  tryStep (pyFloat (dget data "base_length" (.num 5))) fun base =>
  tryStep (pairFloats (dget data "anchor" (.vlist [.num 0, .num 0]))) fun (ax, ay) =>
  let general : BranchOut :=
    ⟨triElems (ax, ay) (ax + base, ay) (ax + base * (3/10), ay + base * (7/10)), none, none⟩
  match dget data "type" (.str "general") with
  | .str t =>
    if t = "equilateral" then
      let height := base * sqrt3d / 2
      ⟨triElems (ax, ay) (ax + base, ay) (ax + base/2, ay + height), none, none⟩
    else if t = "isosceles" then
      tryStep (pyFloat (dget data "height" (.num (base * (4/5))))) fun height =>
      ⟨triElems (ax, ay) (ax + base, ay) (ax + base/2, ay + height), none, none⟩
    else if t = "right" then
      tryStep (pyFloat (dget data "height" (.num (base * (3/4))))) fun height =>
      ⟨triElems (ax, ay) (ax + base, ay) (ax, ay + height), none, none⟩
    else general
  | _ => general

/-- Branch for create_circle: a center point (raw floats, unrounded) and a
circle element referencing it plus the numeric radius. -/
def calcCircle (data : List (String × Val)) : BranchOut :=
  let center := dget data "center" (.vlist [.num 0, .num 0])
  tryStep (pyFloat (dget data "radius" (.num 3))) fun radius =>
  let name := dget data "name" (.str "O")
  tryStep (pairFloats center) fun (cx, cy) =>
  ⟨[ ⟨"p" ++ name.pyStr, "point", [.num cx, .num cy], [("name", name)]⟩
   , ⟨"circle_" ++ name.pyStr, "circle", [.str ("p" ++ name.pyStr), .num radius], []⟩ ],
   none, none⟩

/-- Four corner points (rounded) plus one polygon element, shared by the
rectangle and square branches. -/
def quadElems (polyId : String) (ax ay w h : ℚ) : List Element :=
  [ mkPt (.str "A") (round6 ax) (round6 ay)
  , mkPt (.str "B") (round6 (ax + w)) (round6 ay)
  , mkPt (.str "C") (round6 (ax + w)) (round6 (ay + h))
  , mkPt (.str "D") (round6 ax) (round6 (ay + h))
  , ⟨polyId, "polygon", [.str "pA", .str "pB", .str "pC", .str "pD"], []⟩ ]

/-- Branch for create_rectangle. -/
def calcRectangle (data : List (String × Val)) : BranchOut :=
  let anchor := dget data "anchor" (.vlist [.num 0, .num 0])
  tryStep (pyFloat (dget data "width" (.num 4))) fun width =>
  tryStep (pyFloat (dget data "height" (.num 3))) fun height =>
  tryStep (pairFloats anchor) fun (ax, ay) =>
  ⟨quadElems "rect1" ax ay width height, none, none⟩

/-- Branch for create_square. -/
def calcSquare (data : List (String × Val)) : BranchOut :=
  let anchor := dget data "anchor" (.vlist [.num 0, .num 0])
  tryStep (pyFloat (dget data "side" (.num 4))) fun side =>
  tryStep (pairFloats anchor) fun (ax, ay) =>
  ⟨quadElems "square1" ax ay side side, none, none⟩

/-- Python chr(n), as an injective encoding: the literal character when the
codepoint is a valid Lean Char, and an escape-style injective stand-in for
the surrogate codepoints 0xD800-0xDFFF (which Python chr accepts but a Lean
Char cannot hold - only the distinctness of these names matters to any
claim); callers guard n < 0x110000, beyond which chr raises ValueError. -/
def pychr (n : ℕ) : String :=
  if n.isValidChar then String.singleton (Char.ofNat n)
  else "\\u" ++ String.mk (List.replicate (n - 0xD800) 'u')

/-- The auto-naming comprehension `[chr(65 + i) for i in range(len(vertices))]`,
which raises ValueError if some chr argument exceeds 0x10FFFF. -/
def autoNames (k : ℕ) : Except PyErr (List Val) :=
  if 65 + k ≤ 0x110000 then .ok ((List.range k).map fun i => Val.str (pychr (65 + i)))
  else .error .valueError

/-- The per-vertex loop of the polygon branch: for each vertex the source
first formats `names[i]` into the id, then coerces the two coordinates
(unrounded); a fault stops the loop keeping the points appended so far. -/
def polyLoop : List Val → List Val → List Element × Option PyErr
  | [], _ => ([], none)
  | _ :: _, [] => ([], some .indexError)
  | v :: vs, n :: ns =>
      match pairFloats v with
      | .error e => ([], some e)
      | .ok (x, y) =>
          let (rest, e?) := polyLoop vs ns
          (mkPt n x y :: rest, e?)

/-- The sequence of values `names[i]` yields when a provided names value is
subscripted, which is also the sequence the comprehension
`[f'p{name}' for name in names]` iterates: the entries for a list, the
one-character strings for a string (Python indexes and iterates strings
character by character), and a TypeError for a number.  A number's
TypeError is raised at the first use of names — `names[0]` in the loop
(evaluated for the id, before the coordinate floats) or, when the loop
body never runs, the point_ids comprehension — in either case before any
element is appended, so the coercion is taken before the loop. -/
def nameSeq : Val → Except PyErr (List Val)
  | .vlist l => .ok l
  | .str s => .ok (s.data.map fun c => Val.str (String.singleton c))
  | .num _ => .error .typeError

/-- Branch for create_polygon. -/
def calcPolygon (data : List (String × Val)) : BranchOut :=
  let vertices := dget data "vertices" (.vlist [])
  let namesV := dget data "names" (.vlist [])
  tryStep (pyElems vertices) fun vs =>
  tryStep (if namesV.truthy then nameSeq namesV else autoNames vs.length) fun ns =>
  match polyLoop vs ns with
  | (pts, some e) => ⟨pts, none, some e⟩
  | (pts, none) =>
      ⟨pts ++ [⟨"polygon1", "polygon",
                ns.map fun n => .str ("p" ++ n.pyStr), []⟩], none, none⟩

/-- Branch for create_line: two raw-float points and a line element; a fault
on the second point keeps the first. -/
def calcLine (data : List (String × Val)) : BranchOut :=
  let p1 := dget data "point1" (.vlist [.num 0, .num 0])
  let p2 := dget data "point2" (.vlist [.num 1, .num 1])
  tryStep (pairFloats p1) fun (x1, y1) =>
  let pt1 : Element := ⟨"pP1", "point", [.num x1, .num y1], [("name", .str "P1")]⟩
  match pairFloats p2 with
  | .error e => ⟨[pt1], none, some e⟩
  | .ok (x2, y2) =>
      ⟨[ pt1
       , ⟨"pP2", "point", [.num x2, .num y2], [("name", .str "P2")]⟩
       , ⟨"line1", "line", [.str "pP1", .str "pP2"], []⟩ ], none, none⟩

/-- Extracting the two entries of a point argument for the arithmetic of
the distance/midpoint branches (`p[0]` and `p[1]` used as numbers). -/
def pairNums (v : Val) : Except PyErr (ℚ × ℚ) := do
  let x ← pyIdx v 0
  let fx ← pyFloat x
  let y ← pyIdx v 1
  let fy ← pyFloat y
  return (fx, fy)

/-- Round(√q · 10^k) computed with integer square roots; q is a ratio of
naturals A/B here.  Equals the half-up rounding of the real √(A/B)·10^k
(Python's float formatting would use half-even at exact ties, a
measure-zero difference not exercised by any claim). -/
def sqrtRound (a b : ℕ) (k : ℕ) : ℕ :=
  let A := a * 10 ^ (2 * k)
  (Nat.sqrt (4 * A * b) + b) / (2 * b)

/-- The rounding step of f-string formatting `{q:.4f}` applied to √q. -/
def rheSqrt4 (q : ℚ) : ℕ := sqrtRound q.num.toNat q.den 4

/-- Digits of n/10^k with exactly k fractional digits, the body of
fixed-point float formatting. -/
def fmtFixedNat (k n : ℕ) : String :=
  let frac := toString (n % 10 ^ k)
  toString (n / 10 ^ k) ++ "." ++
    String.mk (List.replicate (k - frac.length) '0') ++ frac

/-- `f'{q:.2f}'` on a rational: half-even rounding at 2 digits, keeping the
sign of the argument as Python does (so -0.001 renders as -0.00). -/
def fmtFixed2 (q : ℚ) : String :=
  (if q < 0 then "-" else "") ++ fmtFixedNat 2 (rhe (|q| * 10^2)).toNat

/-- The explanation of the calculate_distance branch:
`f'두 점 사이의 거리는 {distance:.4f}입니다.'` with distance the float
square root of the rational squared distance. -/
def distMsg (d2 : ℚ) : String :=
  "두 점 사이의 거리는 " ++ fmtFixedNat 4 (rheSqrt4 d2) ++ "입니다."

/-- Branch for calculate_distance: no elements, only the explanation. -/
def calcDistance (data : List (String × Val)) : BranchOut :=
  let p1 := dget data "point1" (.vlist [.num 0, .num 0])
  let p2 := dget data "point2" (.vlist [.num 1, .num 1])
  tryStep (pairNums p1) fun (x1, y1) =>
  tryStep (pairNums p2) fun (x2, y2) =>
  ⟨[], some (distMsg ((x2 - x1)^2 + (y2 - y1)^2)), none⟩

/-- The explanation of the calculate_midpoint branch. -/
def midMsg (mx my : ℚ) : String :=
  "중점 M(" ++ fmtFixed2 mx ++ ", " ++ fmtFixed2 my ++ ")을 표시했습니다."

/-- Branch for calculate_midpoint: one rounded point M plus the
explanation. -/
def calcMidpoint (data : List (String × Val)) : BranchOut :=
  let p1 := dget data "point1" (.vlist [.num 0, .num 0])
  let p2 := dget data "point2" (.vlist [.num 1, .num 1])
  tryStep (pairNums p1) fun (x1, y1) =>
  tryStep (pairNums p2) fun (x2, y2) =>
  let mx := (x1 + x2) / 2
  let my := (y1 + y2) / 2
  ⟨[⟨"pM", "point", [.num (round6 mx), .num (round6 my)],
     [("name", .str "M"), ("color", .str "red")]⟩],
   some (midMsg mx my), none⟩

end Branches

/-- The if/elif dispatch on the intent name inside the try block. -/
def runIntent (intent : String) (data : List (String × Val)) : BranchOut :=
  if intent = "create_point" then calcPoint data
  else if intent = "create_triangle" then calcTriangle data
  else if intent = "create_circle" then calcCircle data
  else if intent = "create_rectangle" then calcRectangle data
  else if intent = "create_square" then calcSquare data
  else if intent = "create_polygon" then calcPolygon data
  else if intent = "create_line" then calcLine data
  else if intent = "calculate_distance" then calcDistance data
  else if intent = "calculate_midpoint" then calcMidpoint data
  else ⟨[], some ("처리할 수 없는 명령입니다: " ++ intent), none⟩

/-- The math engine calculate_geometry of src/backend/main.py: dispatch on
the intent, and the surrounding try/except that turns any exception into a
'계산 오류: ...' explanation while keeping the elements appended before the
fault.  The function is total: no input makes it raise. -/
def calculate_geometry (cmd : Command) : GeoResult :=
  let b := runIntent cmd.intent cmd.data
  { elements := b.els
  , explanation :=
      match b.err? with
      | some e => "계산 오류: " ++ e.msg
      | none => b.expl?.getD cmd.explanation }

/-- The intent names having a dedicated branch in calculate_geometry. -/
def recognizedIntents : List String :=
  [ "create_point", "create_triangle", "create_circle", "create_rectangle"
  , "create_square", "create_polygon", "create_line", "calculate_distance"
  , "calculate_midpoint" ]

/-! ## The Output Sanitizer (spec-modelled)

The sanitizer code path is not among the repository files under src/; only
the specification describes it.  The definitions below are therefore
modelled from the spec, and the corresponding claim is settled against
them. -/

/-- Does the character list contain pat as a contiguous substring. -/
def hasSub (pat : List Char) : List Char → Bool
  | [] => pat.isEmpty
  | c :: rest => pat.isPrefixOf (c :: rest) || hasSub pat rest

/-- Modelled from the spec: the fixed denylist of executable-code indicator
substrings of the Output Sanitizer (arrow/lambda syntax, the function and
return keywords, math-library call syntax, host-rendering-library
internals).  The sanitizer itself is not under src/. -/
def denylist : List String := ["=>", "function", "return", "Math.", "JXG"]

/-- Modelled from the spec: a string is suspect iff it contains one of the
denylisted substrings. -/
def suspectStr (s : String) : Bool := denylist.any fun d => hasSub d.data s.data

/-- A reference slot is suspect when it is a string containing a denylisted
substring; numeric slots are never suspect. -/
def pvalSuspect : PVal → Bool
  | .num _ => false
  | .str s => suspectStr s

/-- Modelled from the spec: an element is tainted when any of its reference
slots holds a suspect string. -/
def elementTainted (el : Element) : Bool := el.parents.any pvalSuspect

/-- Modelled from the spec: the Output Sanitizer drops every tainted
element entirely and passes the remaining elements through unchanged. -/
def sanitizeElements (l : List Element) : List Element :=
  l.filter fun el => !elementTainted el

/-- An identifier-shaped string per the spec: a non-empty
alphanumeric-with-underscore token. -/
def isIdentStr (s : String) : Bool :=
  !s.isEmpty && s.data.all fun c => c.isAlphanum || c == '_'

/-! ## Scene-graph well-formedness -/

/-- The element-id strings appearing in an element's parents. -/
def strParents (el : Element) : List String :=
  el.parents.filterMap fun p =>
    match p with
    | .str s => some s
    | .num _ => none

/-- Walks the element list front to back carrying the ids of the point
elements seen so far; every string parent of a non-point element must be
among them. -/
def WFAux : List String → List Element → Prop
  | _, [] => True
  | seen, el :: rest =>
      (el.type = "point" ∨ ∀ s ∈ strParents el, s ∈ seen) ∧
      WFAux (if el.type = "point" then el.id :: seen else seen) rest

instance instDecWFAux : (seen : List String) → (l : List Element) → Decidable (WFAux seen l)
  | _, [] => isTrue trivial
  | seen, el :: rest =>
      haveI : Decidable (WFAux (if el.type = "point" then el.id :: seen else seen) rest) :=
        instDecWFAux _ rest
      inferInstanceAs (Decidable (_ ∧ _))

/-- A well-formed scene graph: element ids are unique in the list, and
every id string among the parents of a non-point element is the id of a
point element occurring earlier in the list. -/
def WFScene (l : List Element) : Prop :=
  (l.map Element.id).Nodup ∧ WFAux [] l

/-! ## Concrete commands and auxiliary definitions used by the theorems -/

/-- The create_rectangle command with numeric anchor/width/height. -/
def rectCmd (ax ay w h : ℚ) (expl : String) : Command :=
  ⟨"create_rectangle",
   [("anchor", .vlist [.num ax, .num ay]), ("width", .num w), ("height", .num h)], expl⟩

/-- The create_square command with numeric anchor/side. -/
def squareCmd (ax ay s : ℚ) (expl : String) : Command :=
  ⟨"create_square", [("anchor", .vlist [.num ax, .num ay]), ("side", .num s)], expl⟩

/-- The create_triangle equilateral command; the height entry hv is
arbitrary to show it is ignored. -/
def equiCmd (ax ay b : ℚ) (hv : Val) (expl : String) : Command :=
  ⟨"create_triangle",
   [("type", .str "equilateral"), ("base_length", .num b),
    ("anchor", .vlist [.num ax, .num ay]), ("height", hv)], expl⟩

/-- The calculate_distance command on two numeric points. -/
def distCmd (x1 y1 x2 y2 : ℚ) (expl : String) : Command :=
  ⟨"calculate_distance",
   [("point1", .vlist [.num x1, .num y1]), ("point2", .vlist [.num x2, .num y2])], expl⟩

/-- The calculate_midpoint command on two numeric points. -/
def midCmd (x1 y1 x2 y2 : ℚ) (expl : String) : Command :=
  ⟨"calculate_midpoint",
   [("point1", .vlist [.num x1, .num y1]), ("point2", .vlist [.num x2, .num y2])], expl⟩

/-- The point elements of the auto-named polygon branch, with names
starting at codepoint 65 + i0. -/
def autoPts : List (ℚ × ℚ) → ℕ → List Element
  | [], _ => []
  | p :: rest, i0 => mkPt (.str (pychr (65 + i0))) p.1 p.2 :: autoPts rest (i0 + 1)

/-- A vertices value built from rational pairs. -/
def vertsVal (vs : List (ℚ × ℚ)) : Val :=
  .vlist (vs.map fun p => .vlist [.num p.1, .num p.2])

instance instDecWFScene (l : List Element) : Decidable (WFScene l) :=
  inferInstanceAs (Decidable ((l.map Element.id).Nodup ∧ WFAux [] l))

theorem abs_rhe_sub (q : ℚ) : |(rhe q : ℚ) - q| ≤ 1/2 := by
  have h0 : (0:ℚ) ≤ q - ⌊q⌋ := by
    have := Int.floor_le q; linarith
  have h1 : q - ⌊q⌋ < 1 := by
    have := Int.lt_floor_add_one q; linarith
  unfold rhe
  split_ifs <;> push_cast <;> rw [abs_le] <;> constructor <;> linarith

theorem rhe_intCast (n : ℤ) : rhe (n : ℚ) = n := by
  unfold rhe
  rw [Int.floor_intCast]
  split_ifs <;> simp_all

theorem abs_round6_sub (q : ℚ) : |round6 q - q| ≤ 1/2000000 := by
  have key : round6 q - q = ((rhe (q * 10^6) : ℚ) - q * 10^6) / 10^6 := by
    unfold round6; field_simp; ring
  rw [key, abs_div, abs_of_pos (by norm_num : (0:ℚ) < 10^6),
    div_le_iff₀ (by norm_num : (0:ℚ) < 10^6)]
  have he : (1:ℚ)/2000000 * 10^6 = 1/2 := by norm_num
  rw [he]
  exact abs_rhe_sub (q * 10^6)

theorem abs_round6_sub_real (q : ℚ) : |((round6 q - q : ℚ) : ℝ)| ≤ 1/2000000 := by
  have h : ((|round6 q - q| : ℚ) : ℝ) ≤ ((1/2000000 : ℚ) : ℝ) :=
    Rat.cast_le.mpr (abs_round6_sub q)
  rw [← Rat.cast_abs]
  calc ((|round6 q - q| : ℚ) : ℝ) ≤ ((1/2000000 : ℚ) : ℝ) := h
    _ = 1/2000000 := by norm_num

theorem round6_round6 (q : ℚ) : round6 (round6 q) = round6 q := by
  unfold round6
  rw [div_mul_cancel₀ _ (by norm_num : (10:ℚ)^6 ≠ 0), rhe_intCast]

/-- Evaluation rule for rhe away from ties: any value strictly within 1/2
of the integer n rounds to n. -/
theorem rhe_eq_of_near (q : ℚ) (n : ℤ) (h1 : (n:ℚ) - 1/2 < q) (h2 : q < (n:ℚ) + 1/2) :
    rhe q = n := by
  unfold rhe
  rcases le_or_lt (n : ℚ) q with hge | hlt
  · have hf : ⌊q⌋ = n := by
      rw [Int.floor_eq_iff]
      constructor
      · exact_mod_cast hge
      · linarith
    rw [hf, if_pos (show q - (n:ℚ) < 1/2 by linarith)]
  · have hf : ⌊q⌋ = n - 1 := by
      rw [Int.floor_eq_iff]
      constructor
      · push_cast; linarith
      · push_cast; linarith
    rw [hf, if_neg (show ¬(q - ((n - 1 : ℤ) : ℚ) < 1/2) by push_cast; linarith),
      if_pos (show 1/2 < q - ((n - 1 : ℤ) : ℚ) by push_cast; linarith)]
    omega

/-- Evaluation rule for round6 away from ties. -/
theorem round6_eq_of_near (q : ℚ) (n : ℤ)
    (h1 : (n:ℚ) - 1/2 < q * 10^6) (h2 : q * 10^6 < (n:ℚ) + 1/2) :
    round6 q = (n : ℚ) / 10^6 := by
  unfold round6
  rw [rhe_eq_of_near (q * 10^6) n h1 h2]

/-! ## Claim C3: unknown intent names -/

/-- C3: for every intent name outside the recognized vocabulary (no
dedicated branch in calculate_geometry), the compiled result has an empty
elements list and a non-empty explanation noting the intent could not be
handled; the computation completes normally (the total model returns a
plain result, no exception component). -/
theorem unknown_intent_handled (cmd : Command) (h : cmd.intent ∉ recognizedIntents) :
    (calculate_geometry cmd).elements = [] ∧
    (calculate_geometry cmd).explanation = "처리할 수 없는 명령입니다: " ++ cmd.intent ∧
    (calculate_geometry cmd).explanation ≠ "" := by
  simp only [recognizedIntents, List.mem_cons, List.not_mem_nil, or_false, not_or] at h
  obtain ⟨n1, n2, n3, n4, n5, n6, n7, n8, n9⟩ := h
  have hrun : runIntent cmd.intent cmd.data =
      ⟨[], some ("처리할 수 없는 명령입니다: " ++ cmd.intent), none⟩ := by
    unfold runIntent
    rw [if_neg n1, if_neg n2, if_neg n3, if_neg n4, if_neg n5, if_neg n6, if_neg n7,
      if_neg n8, if_neg n9]
  refine ⟨?_, ?_, ?_⟩
  · simp [calculate_geometry, hrun]
  · simp [calculate_geometry, hrun]
  · simp only [calculate_geometry, hrun, Option.getD_some]
    intro hc
    have hlen := congrArg String.length hc
    rw [String.length_append] at hlen
    have hp : 0 < ("처리할 수 없는 명령입니다: ").length := by decide
    have hz : ("").length = 0 := by decide
    omega

/-- Witness for C3 at the concrete unhandled intent name modify_element
(listed in the system instruction but having no branch in the math
engine). -/
theorem unknown_intent_handled_wit :
    "modify_element" ∉ recognizedIntents ∧
    ((calculate_geometry ⟨"modify_element", [], "hi"⟩).elements = [] ∧
     (calculate_geometry ⟨"modify_element", [], "hi"⟩).explanation =
       "처리할 수 없는 명령입니다: " ++ "modify_element" ∧
     (calculate_geometry ⟨"modify_element", [], "hi"⟩).explanation ≠ "") :=
  ⟨by decide, unknown_intent_handled ⟨"modify_element", [], "hi"⟩ (by decide)⟩

/-! ## Claim C2: rectangle and square corner layout -/

/-- C2 (amended): the rectangle/square branches emit the four corner points
in order bottom-left, bottom-right, top-right, top-left, each coordinate
rounded to 6 fractional digits, followed by one polygon element referencing
the four point ids in that order; for the concrete square at anchor [0,0]
with side 4 the rounding is the identity, so the points are at
(0,0),(4,0),(4,4),(0,4) exactly. -/
theorem rect_square_corners :
    (∀ (ax ay w h : ℚ) (expl : String),
      calculate_geometry (rectCmd ax ay w h expl) =
        ⟨[ ⟨"pA", "point", [.num (round6 ax), .num (round6 ay)], [("name", .str "A")]⟩
         , ⟨"pB", "point", [.num (round6 (ax + w)), .num (round6 ay)], [("name", .str "B")]⟩
         , ⟨"pC", "point", [.num (round6 (ax + w)), .num (round6 (ay + h))], [("name", .str "C")]⟩
         , ⟨"pD", "point", [.num (round6 ax), .num (round6 (ay + h))], [("name", .str "D")]⟩
         , ⟨"rect1", "polygon", [.str "pA", .str "pB", .str "pC", .str "pD"], []⟩ ], expl⟩) ∧
    (∀ (ax ay s : ℚ) (expl : String),
      calculate_geometry (squareCmd ax ay s expl) =
        ⟨[ ⟨"pA", "point", [.num (round6 ax), .num (round6 ay)], [("name", .str "A")]⟩
         , ⟨"pB", "point", [.num (round6 (ax + s)), .num (round6 ay)], [("name", .str "B")]⟩
         , ⟨"pC", "point", [.num (round6 (ax + s)), .num (round6 (ay + s))], [("name", .str "C")]⟩
         , ⟨"pD", "point", [.num (round6 ax), .num (round6 (ay + s))], [("name", .str "D")]⟩
         , ⟨"square1", "polygon", [.str "pA", .str "pB", .str "pC", .str "pD"], []⟩ ], expl⟩) ∧
    calculate_geometry (squareCmd 0 0 4 "sq") =
      ⟨[ ⟨"pA", "point", [.num 0, .num 0], [("name", .str "A")]⟩
       , ⟨"pB", "point", [.num 4, .num 0], [("name", .str "B")]⟩
       , ⟨"pC", "point", [.num 4, .num 4], [("name", .str "C")]⟩
       , ⟨"pD", "point", [.num 0, .num 4], [("name", .str "D")]⟩
       , ⟨"square1", "polygon", [.str "pA", .str "pB", .str "pC", .str "pD"], []⟩ ], "sq"⟩ := by
  refine ⟨fun ax ay w h expl => rfl, fun ax ay s expl => rfl, ?_⟩
  have e0 : round6 0 = 0 := by
    rw [round6_eq_of_near 0 0 (by norm_num) (by norm_num)]; norm_num
  have e4 : round6 (0 + 4 : ℚ) = 4 := by
    rw [round6_eq_of_near (0 + 4 : ℚ) 4000000 (by norm_num) (by norm_num)]; norm_num
  calc calculate_geometry (squareCmd 0 0 4 "sq")
      = ⟨[ ⟨"pA", "point", [.num (round6 0), .num (round6 0)], [("name", .str "A")]⟩
         , ⟨"pB", "point", [.num (round6 (0 + 4)), .num (round6 0)], [("name", .str "B")]⟩
         , ⟨"pC", "point", [.num (round6 (0 + 4)), .num (round6 (0 + 4))], [("name", .str "C")]⟩
         , ⟨"pD", "point", [.num (round6 0), .num (round6 (0 + 4))], [("name", .str "D")]⟩
         , ⟨"square1", "polygon", [.str "pA", .str "pB", .str "pC", .str "pD"], []⟩ ], "sq"⟩ := rfl
    _ = _ := by rw [e0, e4]

/-- Counterexample to C2 as stated: with anchor [0,0] and width 1e-7 the
second emitted point is at (0, 0) after 6-digit rounding, not at the exact
coordinate (ax + w, ay) = (1e-7, 0) the claim demands. -/
theorem rect_corner_not_exact :
    calculate_geometry (rectCmd 0 0 (1/10^7) 1 "r") =
      ⟨[ ⟨"pA", "point", [.num 0, .num 0], [("name", .str "A")]⟩
       , ⟨"pB", "point", [.num 0, .num 0], [("name", .str "B")]⟩
       , ⟨"pC", "point", [.num 0, .num 1], [("name", .str "C")]⟩
       , ⟨"pD", "point", [.num 0, .num 1], [("name", .str "D")]⟩
       , ⟨"rect1", "polygon", [.str "pA", .str "pB", .str "pC", .str "pD"], []⟩ ], "r"⟩ ∧
    (0 : ℚ) ≠ 0 + 1/10^7 := by
  have e0 : round6 0 = 0 := by
    rw [round6_eq_of_near 0 0 (by norm_num) (by norm_num)]; norm_num
  have ew : round6 (0 + 1/10^7 : ℚ) = 0 := by
    rw [round6_eq_of_near (0 + 1/10^7 : ℚ) 0 (by norm_num) (by norm_num)]; norm_num
  have e1 : round6 (0 + 1 : ℚ) = 1 := by
    rw [round6_eq_of_near (0 + 1 : ℚ) 1000000 (by norm_num) (by norm_num)]; norm_num
  refine ⟨?_, by norm_num⟩
  calc calculate_geometry (rectCmd 0 0 (1/10^7) 1 "r")
      = ⟨[ ⟨"pA", "point", [.num (round6 0), .num (round6 0)], [("name", .str "A")]⟩
         , ⟨"pB", "point", [.num (round6 (0 + 1/10^7)), .num (round6 0)], [("name", .str "B")]⟩
         , ⟨"pC", "point", [.num (round6 (0 + 1/10^7)), .num (round6 (0 + 1))], [("name", .str "C")]⟩
         , ⟨"pD", "point", [.num (round6 0), .num (round6 (0 + 1))], [("name", .str "D")]⟩
         , ⟨"rect1", "polygon", [.str "pA", .str "pB", .str "pC", .str "pD"], []⟩ ], "r"⟩ := rfl
    _ = _ := by rw [e0, ew, e1]

/-! ## Euclidean distance toolkit for the side-length claims -/

theorem sqrt_add_sq_eq_cabs (x y : ℝ) : Real.sqrt (x^2 + y^2) = Complex.abs ⟨x, y⟩ := by
  rw [Complex.abs_apply, Complex.normSq_mk]
  ring_nf

/-- The reverse triangle inequality for planar Euclidean norms written with
Real.sqrt. -/
theorem abs_sqrt_sub_sqrt_le (x1 y1 x2 y2 : ℝ) :
    |Real.sqrt (x1^2 + y1^2) - Real.sqrt (x2^2 + y2^2)| ≤
      Real.sqrt ((x1-x2)^2 + (y1-y2)^2) := by
  rw [sqrt_add_sq_eq_cabs, sqrt_add_sq_eq_cabs, sqrt_add_sq_eq_cabs]
  have h := Complex.abs.abs_abv_sub_le_abv_sub (⟨x1, y1⟩ : ℂ) (⟨x2, y2⟩ : ℂ)
  have hsub : (⟨x1, y1⟩ : ℂ) - ⟨x2, y2⟩ = ⟨x1 - x2, y1 - y2⟩ := by
    apply Complex.ext <;> simp
  rw [hsub] at h
  exact h

/-- A vector with both coordinates within 1e-6 has norm at most 1.4143e-6. -/
theorem err_vec_bound (a c : ℝ) (ha : |a| ≤ 1/1000000) (hc : |c| ≤ 1/1000000) :
    Real.sqrt (a^2 + c^2) ≤ 14143/10^10 := by
  rw [show (14143:ℝ)/10^10 = Real.sqrt ((14143/10^10)^2) from
    (Real.sqrt_sq (by norm_num)).symm]
  apply Real.sqrt_le_sqrt
  have ha2 : a^2 ≤ (1/1000000)^2 := by
    rw [← sq_abs]
    exact pow_le_pow_left₀ (abs_nonneg a) ha 2
  have hc2 : c^2 ≤ (1/1000000)^2 := by
    rw [← sq_abs]
    exact pow_le_pow_left₀ (abs_nonneg c) hc 2
  nlinarith

/-- Master bound: rounding each coordinate of the two endpoints to 6
fractional digits moves the Euclidean distance by at most 1.4143e-6, so a
side whose exact length is within 1e-9 of b stays within 1.5e-6 of b. -/
theorem rounded_side_near (px py qx qy : ℚ) (b : ℝ)
    (hexact : |Real.sqrt (((px - qx : ℚ) : ℝ)^2 + ((py - qy : ℚ):ℝ)^2) - b| ≤ 1/10^9) :
    |Real.sqrt (((round6 px - round6 qx : ℚ):ℝ)^2 + ((round6 py - round6 qy : ℚ):ℝ)^2) - b|
      ≤ 3/2000000 := by
  have key := abs_sqrt_sub_sqrt_le ((round6 px - round6 qx : ℚ):ℝ) ((round6 py - round6 qy : ℚ):ℝ)
    ((px - qx : ℚ):ℝ) ((py - qy : ℚ):ℝ)
  have hrx : |(((round6 px - px) : ℚ) : ℝ)| ≤ 1/2000000 := abs_round6_sub_real px
  have hrx' : |(((round6 qx - qx) : ℚ) : ℝ)| ≤ 1/2000000 := abs_round6_sub_real qx
  have hry : |(((round6 py - py) : ℚ) : ℝ)| ≤ 1/2000000 := abs_round6_sub_real py
  have hry' : |(((round6 qy - qy) : ℚ) : ℝ)| ≤ 1/2000000 := abs_round6_sub_real qy
  have hax : |((round6 px - round6 qx : ℚ):ℝ) - ((px - qx : ℚ):ℝ)| ≤ 1/1000000 := by
    have hd : ((round6 px - round6 qx : ℚ):ℝ) - ((px - qx : ℚ):ℝ) =
        (((round6 px - px) : ℚ) : ℝ) - (((round6 qx - qx) : ℚ) : ℝ) := by
      push_cast; ring
    rw [hd]
    calc |(((round6 px - px) : ℚ) : ℝ) - (((round6 qx - qx) : ℚ) : ℝ)|
        ≤ |(((round6 px - px) : ℚ) : ℝ)| + |(((round6 qx - qx) : ℚ) : ℝ)| := abs_sub _ _
      _ ≤ 1/1000000 := by linarith
  have hay : |((round6 py - round6 qy : ℚ):ℝ) - ((py - qy : ℚ):ℝ)| ≤ 1/1000000 := by
    have hd : ((round6 py - round6 qy : ℚ):ℝ) - ((py - qy : ℚ):ℝ) =
        (((round6 py - py) : ℚ) : ℝ) - (((round6 qy - qy) : ℚ) : ℝ) := by
      push_cast; ring
    rw [hd]
    calc |(((round6 py - py) : ℚ) : ℝ) - (((round6 qy - qy) : ℚ) : ℝ)|
        ≤ |(((round6 py - py) : ℚ) : ℝ)| + |(((round6 qy - qy) : ℚ) : ℝ)| := abs_sub _ _
      _ ≤ 1/1000000 := by linarith
  have herr := err_vec_bound _ _ hax hay
  have tri := abs_sub_le
    (Real.sqrt (((round6 px - round6 qx : ℚ):ℝ)^2 + ((round6 py - round6 qy : ℚ):ℝ)^2))
    (Real.sqrt (((px - qx : ℚ):ℝ)^2 + ((py - qy : ℚ):ℝ)^2)) b
  linarith

/-- Exact length of the slanted equilateral sides: with the double value of
√3 the unrounded side differs from b by at most 1e-9 for 0 ≤ b ≤ 1e6. -/
theorem slant_exact (b dx dy : ℚ) (hb : 0 ≤ b) (hb6 : b ≤ 1000000)
    (hdx : dx^2 = (b/2)^2) (hdy : dy^2 = (b * sqrt3d / 2)^2) :
    |Real.sqrt ((dx:ℝ)^2 + (dy:ℝ)^2) - (b:ℝ)| ≤ 1/10^9 := by
  have hveq : ((sqrt3d : ℚ) : ℝ) = 3900231685776981 / 2251799813685248 := by
    norm_num [sqrt3d]
  have hB : (0:ℝ) ≤ (b:ℝ) := by exact_mod_cast hb
  have hB6 : (b:ℝ) ≤ 1000000 := by exact_mod_cast hb6
  have hdx' : (dx:ℝ)^2 = ((b:ℝ)/2)^2 := by exact_mod_cast hdx
  have hdy' : (dy:ℝ)^2 = ((b:ℝ) * ((sqrt3d : ℚ):ℝ) / 2)^2 := by exact_mod_cast hdy
  have harg : (dx:ℝ)^2 + (dy:ℝ)^2 = ((b:ℝ)/2)^2 * (1 + ((sqrt3d : ℚ):ℝ)^2) := by
    rw [hdx', hdy']; ring
  rw [harg, Real.sqrt_mul (sq_nonneg _), Real.sqrt_sq (by positivity)]
  have hv_hi : ((sqrt3d : ℚ):ℝ)^2 ≤ 3 := by rw [hveq]; norm_num
  have hv_lo : 3 - 1/10^15 ≤ ((sqrt3d : ℚ):ℝ)^2 := by rw [hveq]; norm_num
  have hs_hi : Real.sqrt (1 + ((sqrt3d : ℚ):ℝ)^2) ≤ 2 := by
    rw [Real.sqrt_le_left (by norm_num : (0:ℝ) ≤ 2)]
    nlinarith
  have hs_lo : 2 - 1/10^15 ≤ Real.sqrt (1 + ((sqrt3d : ℚ):ℝ)^2) :=
    Real.le_sqrt_of_sq_le (by nlinarith)
  have hmul_hi : (b:ℝ)/2 * Real.sqrt (1 + ((sqrt3d : ℚ):ℝ)^2) ≤ (b:ℝ)/2 * 2 :=
    mul_le_mul_of_nonneg_left hs_hi (by positivity)
  have hmul_lo : (b:ℝ)/2 * (2 - 1/10^15) ≤ (b:ℝ)/2 * Real.sqrt (1 + ((sqrt3d : ℚ):ℝ)^2) :=
    mul_le_mul_of_nonneg_left hs_lo (by positivity)
  rw [abs_le]
  constructor <;> nlinarith

/-! ## Claim C1: equilateral triangles -/

/-- C1 (amended): the equilateral branch emits exactly the three points
A, B, C at the 6-digit roundings of (ax,ay), (ax+b,ay),
(ax+b/2, ay+b·√3/2), followed by the three boundary segments A-B, B-C,
C-A, for any supplied height value (ignored); and for 0 < b ≤ 1e6 each of
the three side lengths of the emitted points equals b within 1.5e-6 (the
claimed 1e-6 tolerance can be exceeded, see the counterexample). -/
theorem equilateral_triangle_sides :
    (∀ (ax ay b : ℚ) (hv : Val) (expl : String),
      calculate_geometry (equiCmd ax ay b hv expl) =
        ⟨[ ⟨"pA", "point", [.num (round6 ax), .num (round6 ay)], [("name", .str "A")]⟩
         , ⟨"pB", "point", [.num (round6 (ax + b)), .num (round6 ay)], [("name", .str "B")]⟩
         , ⟨"pC", "point", [.num (round6 (ax + b/2)), .num (round6 (ay + b * sqrt3d / 2))],
             [("name", .str "C")]⟩
         , ⟨"sAB", "segment", [.str "pA", .str "pB"], []⟩
         , ⟨"sBC", "segment", [.str "pB", .str "pC"], []⟩
         , ⟨"sCA", "segment", [.str "pC", .str "pA"], []⟩ ], expl⟩) ∧
    (∀ (ax ay b : ℚ), 0 < b → b ≤ 1000000 →
      |Real.sqrt (((round6 (ax + b) - round6 ax : ℚ):ℝ)^2
        + ((round6 ay - round6 ay : ℚ):ℝ)^2) - (b:ℝ)| ≤ 3/2000000 ∧
      |Real.sqrt (((round6 (ax + b) - round6 (ax + b/2) : ℚ):ℝ)^2
        + ((round6 ay - round6 (ay + b * sqrt3d / 2) : ℚ):ℝ)^2) - (b:ℝ)| ≤ 3/2000000 ∧
      |Real.sqrt (((round6 (ax + b/2) - round6 ax : ℚ):ℝ)^2
        + ((round6 (ay + b * sqrt3d / 2) - round6 ay : ℚ):ℝ)^2) - (b:ℝ)| ≤ 3/2000000) := by
  constructor
  · exact fun ax ay b hv expl => rfl
  · intro ax ay b hb0 hb6
    have hb : (0:ℚ) ≤ b := le_of_lt hb0
    have hB : (0:ℝ) ≤ (b:ℝ) := by exact_mod_cast hb
    refine ⟨?_, ?_, ?_⟩
    · refine rounded_side_near (ax + b) ay ax ay (b:ℝ) ?_
      have harg : ((ax + b - ax : ℚ):ℝ)^2 + ((ay - ay : ℚ):ℝ)^2 = ((b:ℝ))^2 := by
        push_cast; ring
      rw [harg, Real.sqrt_sq hB]
      simp
    · refine rounded_side_near (ax + b) ay (ax + b/2) (ay + b * sqrt3d / 2) (b:ℝ) ?_
      exact slant_exact b (ax + b - (ax + b/2)) (ay - (ay + b * sqrt3d / 2)) hb hb6
        (by ring) (by ring)
    · refine rounded_side_near (ax + b/2) (ay + b * sqrt3d / 2) ax ay (b:ℝ) ?_
      exact slant_exact b (ax + b/2 - ax) (ay + b * sqrt3d / 2 - ay) hb hb6
        (by ring) (by ring)

/-- Witness for C1 at anchor (0,0), base 5, with a height entry 99 present
and ignored. -/
theorem equilateral_triangle_sides_wit :
    (0:ℚ) < 5 ∧ (5:ℚ) ≤ 1000000 ∧
    calculate_geometry (equiCmd 0 0 5 (.num 99) "tri") =
      ⟨[ ⟨"pA", "point", [.num (round6 0), .num (round6 0)], [("name", .str "A")]⟩
       , ⟨"pB", "point", [.num (round6 (0 + 5)), .num (round6 0)], [("name", .str "B")]⟩
       , ⟨"pC", "point", [.num (round6 (0 + 5/2)), .num (round6 (0 + 5 * sqrt3d / 2))],
           [("name", .str "C")]⟩
       , ⟨"sAB", "segment", [.str "pA", .str "pB"], []⟩
       , ⟨"sBC", "segment", [.str "pB", .str "pC"], []⟩
       , ⟨"sCA", "segment", [.str "pC", .str "pA"], []⟩ ], "tri"⟩ ∧
    |Real.sqrt (((round6 (0 + 5/2) - round6 0 : ℚ):ℝ)^2
      + ((round6 (0 + 5 * sqrt3d / 2) - round6 0 : ℚ):ℝ)^2) - ((5:ℚ):ℝ)| ≤ 3/2000000 :=
  ⟨by norm_num, by norm_num,
   equilateral_triangle_sides.1 0 0 5 (.num 99) "tri",
   (equilateral_triangle_sides.2 0 0 5 (by norm_num) (by norm_num)).2.2⟩

/-- Counterexample to C1 as stated: at anchor (4e-7, 4e-7) with base
b = 5.0000084 the emitted vertices are A = (0,0) and
C = (2.500005, 4.330135), and the side CA measures more than b + 1e-6, so
the claimed 1e-6 tolerance on the side lengths is violated (the deviation
is about 1.012e-6, caused by the 6-digit rounding of the coordinates). -/
theorem equilateral_side_tolerance_cex :
    calculate_geometry (equiCmd (4/10^7) (4/10^7) (12500021/2500000) (.num 0) "t") =
      ⟨[ ⟨"pA", "point", [.num 0, .num 0], [("name", .str "A")]⟩
       , ⟨"pB", "point", [.num (5000009/1000000), .num 0], [("name", .str "B")]⟩
       , ⟨"pC", "point", [.num (500001/200000), .num (866027/200000)], [("name", .str "C")]⟩
       , ⟨"sAB", "segment", [.str "pA", .str "pB"], []⟩
       , ⟨"sBC", "segment", [.str "pB", .str "pC"], []⟩
       , ⟨"sCA", "segment", [.str "pC", .str "pA"], []⟩ ], "t"⟩ ∧
    (12500021/2500000 + 1/10^6 : ℝ) <
      Real.sqrt ((500001/200000 - 0 : ℝ)^2 + (866027/200000 - 0 : ℝ)^2) := by
  have e0 : round6 (4/10^7) = 0 := by
    rw [round6_eq_of_near (4/10^7) 0 (by norm_num) (by norm_num)]; norm_num
  have eB : round6 (4/10^7 + 12500021/2500000) = 5000009/1000000 := by
    rw [round6_eq_of_near (4/10^7 + 12500021/2500000) 5000009 (by norm_num) (by norm_num)]
    norm_num
  have eC : round6 (4/10^7 + 12500021/2500000/2) = 500001/200000 := by
    rw [round6_eq_of_near (4/10^7 + 12500021/2500000/2) 2500005 (by norm_num) (by norm_num)]
    norm_num
  have eH : round6 (4/10^7 + 12500021/2500000 * sqrt3d / 2) = 866027/200000 := by
    rw [round6_eq_of_near (4/10^7 + 12500021/2500000 * sqrt3d / 2) 4330135
      (by norm_num [sqrt3d]) (by norm_num [sqrt3d])]
    norm_num
  constructor
  · calc calculate_geometry (equiCmd (4/10^7) (4/10^7) (12500021/2500000) (.num 0) "t")
        = ⟨[ ⟨"pA", "point", [.num (round6 (4/10^7)), .num (round6 (4/10^7))],
               [("name", .str "A")]⟩
           , ⟨"pB", "point", [.num (round6 (4/10^7 + 12500021/2500000)),
               .num (round6 (4/10^7))], [("name", .str "B")]⟩
           , ⟨"pC", "point", [.num (round6 (4/10^7 + 12500021/2500000/2)),
               .num (round6 (4/10^7 + 12500021/2500000 * sqrt3d / 2))], [("name", .str "C")]⟩
           , ⟨"sAB", "segment", [.str "pA", .str "pB"], []⟩
           , ⟨"sBC", "segment", [.str "pB", .str "pC"], []⟩
           , ⟨"sCA", "segment", [.str "pC", .str "pA"], []⟩ ], "t"⟩ := rfl
      _ = _ := by rw [e0, eB, eC, eH]
  · refine Real.lt_sqrt_of_sq_lt ?_
    norm_num

/-! ## Correctness of the integer-square-root rounding used by the
distance formatting -/

/-- sqrtRound a b k is within 1/2 of the real value sqrt(a/b) * 10^k: it is
the rounding of the real square root that float formatting performs. -/
theorem sqrtRound_near (a b k : ℕ) (hb : 0 < b) :
    |((sqrtRound a b k : ℕ) : ℝ) - Real.sqrt ((a:ℝ)/(b:ℝ)) * 10^k| ≤ 1/2 := by
  unfold sqrtRound
  have hdm := Nat.div_add_mod (Nat.sqrt (4 * (a * 10 ^ (2 * k)) * b) + b) (2 * b)
  have hmlt : (Nat.sqrt (4 * (a * 10 ^ (2 * k)) * b) + b) % (2 * b) < 2 * b :=
    Nat.mod_lt _ (by omega)
  have hlo : 2 * b * ((Nat.sqrt (4 * (a * 10 ^ (2 * k)) * b) + b) / (2 * b)) ≤
      Nat.sqrt (4 * (a * 10 ^ (2 * k)) * b) + b := by omega
  have hhi : Nat.sqrt (4 * (a * 10 ^ (2 * k)) * b) + 1 ≤
      2 * b * ((Nat.sqrt (4 * (a * 10 ^ (2 * k)) * b) + b) / (2 * b)) + b := by omega
  have h1 : ((Nat.sqrt (4 * (a * 10 ^ (2 * k)) * b) : ℕ) : ℝ) ≤
      Real.sqrt ((4 * (a * 10 ^ (2 * k)) * b : ℕ) : ℝ) := Real.nat_sqrt_le_real_sqrt
  have h2 : Real.sqrt ((4 * (a * 10 ^ (2 * k)) * b : ℕ) : ℝ) <
      ((Nat.sqrt (4 * (a * 10 ^ (2 * k)) * b) : ℕ) : ℝ) + 1 :=
    @Real.real_sqrt_lt_nat_sqrt_succ (4 * (a * 10 ^ (2 * k)) * b)
  have hcast : ((4 * (a * 10 ^ (2 * k)) * b : ℕ) : ℝ) =
      (2 * (b:ℝ))^2 * ((a:ℝ)/(b:ℝ)) * ((10:ℝ)^k)^2 := by
    have hbne : (b:ℝ) ≠ 0 := by positivity
    push_cast
    field_simp
    ring
  have hsqrt : Real.sqrt ((4 * (a * 10 ^ (2 * k)) * b : ℕ) : ℝ) =
      2 * (b:ℝ) * Real.sqrt ((a:ℝ)/(b:ℝ)) * (10:ℝ)^k := by
    rw [hcast, Real.sqrt_mul (by positivity), Real.sqrt_mul (by positivity),
      Real.sqrt_sq (by positivity), Real.sqrt_sq (by positivity)]
  have hbR : (0:ℝ) < (b:ℝ) := by exact_mod_cast hb
  have hS : (0:ℝ) ≤ Real.sqrt ((a:ℝ)/(b:ℝ)) * 10^k := by positivity
  have hloR : 2 * (b:ℝ) * (((Nat.sqrt (4 * (a * 10 ^ (2 * k)) * b) + b) / (2 * b) : ℕ) : ℝ) ≤
      ((Nat.sqrt (4 * (a * 10 ^ (2 * k)) * b) : ℕ) : ℝ) + (b:ℝ) := by
    exact_mod_cast hlo
  have hhiR : ((Nat.sqrt (4 * (a * 10 ^ (2 * k)) * b) : ℕ) : ℝ) + 1 ≤
      2 * (b:ℝ) * (((Nat.sqrt (4 * (a * 10 ^ (2 * k)) * b) + b) / (2 * b) : ℕ) : ℝ) + (b:ℝ) := by
    exact_mod_cast hhi
  rw [hsqrt] at h1 h2
  rw [abs_le]
  constructor
  · have hkey : 2 * (b:ℝ) * (Real.sqrt ((a:ℝ)/(b:ℝ)) * (10:ℝ)^k - 1/2) ≤
        2 * (b:ℝ) * (((Nat.sqrt (4 * (a * 10 ^ (2 * k)) * b) + b) / (2 * b) : ℕ) : ℝ) := by
      nlinarith
    have := (mul_le_mul_left (by positivity : (0:ℝ) < 2 * (b:ℝ))).mp hkey
    linarith
  · have hkey : 2 * (b:ℝ) * (((Nat.sqrt (4 * (a * 10 ^ (2 * k)) * b) + b) / (2 * b) : ℕ) : ℝ) ≤
        2 * (b:ℝ) * (Real.sqrt ((a:ℝ)/(b:ℝ)) * (10:ℝ)^k + 1/2) := by
      nlinarith
    have := (mul_le_mul_left (by positivity : (0:ℝ) < 2 * (b:ℝ))).mp hkey
    linarith

/-- The 4-decimal rounding of the square root of a nonnegative rational is
within 1/2 ulp of the real square root scaled by 10^4. -/
theorem rheSqrt4_near (q : ℚ) (hq : 0 ≤ q) :
    |((rheSqrt4 q : ℕ) : ℝ) - Real.sqrt ((q:ℝ)) * 10^4| ≤ 1/2 := by
  unfold rheSqrt4
  have hden : 0 < q.den := q.pos
  have key := sqrtRound_near q.num.toNat q.den 4 hden
  have hnum : ((q.num.toNat : ℕ) : ℝ) = ((q.num : ℤ) : ℝ) := by
    exact_mod_cast congrArg (fun z : ℤ => (z : ℝ)) (Int.toNat_of_nonneg (Rat.num_nonneg.mpr hq))
  have harg : ((q.num.toNat : ℕ):ℝ)/((q.den : ℕ):ℝ) = (q : ℝ) := by
    rw [hnum, Rat.cast_def]
  rw [harg] at key
  exact key

/-! ## Claim C9: calculate_distance and calculate_midpoint -/

/-- C9 (amended): calculate_distance emits no elements and an explanation
carrying the Euclidean norm of p2 - p1 formatted to 4 decimal places (the
carried 4-digit value is within half an ulp of the real norm times 10^4);
calculate_midpoint emits exactly one point element at the 6-digit rounding
of the arithmetic mean of the two points (the claim's exact arithmetic
mean only up to that rounding), and the arithmetic mean itself is
equidistant from p1 and p2. -/
theorem distance_and_midpoint :
    (∀ (x1 y1 x2 y2 : ℚ) (expl : String),
      calculate_geometry (distCmd x1 y1 x2 y2 expl) =
        ⟨[], "두 점 사이의 거리는 " ++
          fmtFixedNat 4 (rheSqrt4 ((x2 - x1)^2 + (y2 - y1)^2)) ++ "입니다."⟩ ∧
      |((rheSqrt4 ((x2 - x1)^2 + (y2 - y1)^2) : ℕ) : ℝ) / 10^4 -
        Real.sqrt (((x2 - x1 : ℚ):ℝ)^2 + ((y2 - y1 : ℚ):ℝ)^2)| ≤ 1/20000) ∧
    (∀ (x1 y1 x2 y2 : ℚ) (expl : String),
      calculate_geometry (midCmd x1 y1 x2 y2 expl) =
        ⟨[⟨"pM", "point",
           [.num (round6 ((x1 + x2)/2)), .num (round6 ((y1 + y2)/2))],
           [("name", .str "M"), ("color", .str "red")]⟩],
         midMsg ((x1 + x2)/2) ((y1 + y2)/2)⟩ ∧
      Real.sqrt ((((x1 + x2)/2 - x1 : ℚ):ℝ)^2 + (((y1 + y2)/2 - y1 : ℚ):ℝ)^2) =
        Real.sqrt (((x2 - (x1 + x2)/2 : ℚ):ℝ)^2 + ((y2 - (y1 + y2)/2 : ℚ):ℝ)^2)) := by
  constructor
  · intro x1 y1 x2 y2 expl
    constructor
    · rfl
    · have hq : (0:ℚ) ≤ (x2 - x1)^2 + (y2 - y1)^2 := by positivity
      have key := rheSqrt4_near ((x2 - x1)^2 + (y2 - y1)^2) hq
      have harg : ((((x2 - x1)^2 + (y2 - y1)^2 : ℚ)) : ℝ) =
          ((x2 - x1 : ℚ):ℝ)^2 + ((y2 - y1 : ℚ):ℝ)^2 := by
        push_cast; ring
      rw [harg] at key
      have h104 : (0:ℝ) < 10^4 := by norm_num
      have hsplit : ((rheSqrt4 ((x2 - x1)^2 + (y2 - y1)^2) : ℕ) : ℝ) / 10^4 -
          Real.sqrt (((x2 - x1 : ℚ):ℝ)^2 + ((y2 - y1 : ℚ):ℝ)^2) =
          (((rheSqrt4 ((x2 - x1)^2 + (y2 - y1)^2) : ℕ) : ℝ) -
            Real.sqrt (((x2 - x1 : ℚ):ℝ)^2 + ((y2 - y1 : ℚ):ℝ)^2) * 10^4) / 10^4 := by
        ring
      rw [hsplit, abs_div, abs_of_pos h104, div_le_iff₀ h104]
      calc |((rheSqrt4 ((x2 - x1)^2 + (y2 - y1)^2) : ℕ) : ℝ) -
            Real.sqrt (((x2 - x1 : ℚ):ℝ)^2 + ((y2 - y1 : ℚ):ℝ)^2) * 10^4| ≤ 1/2 := key
        _ = 1/20000 * 10^4 := by norm_num
  · intro x1 y1 x2 y2 expl
    refine ⟨rfl, ?_⟩
    have harg : (((x1 + x2)/2 - x1 : ℚ):ℝ)^2 + (((y1 + y2)/2 - y1 : ℚ):ℝ)^2 =
        ((x2 - (x1 + x2)/2 : ℚ):ℝ)^2 + ((y2 - (y1 + y2)/2 : ℚ):ℝ)^2 := by
      push_cast; ring
    rw [harg]

/-- Counterexample to C9 as stated: for p1 = (0,0), p2 = (1e-7, 0) the
emitted midpoint is (0,0), not the arithmetic mean (5e-8, 0), because of
the 6-digit rounding; and the emitted point has distance 0 to p1 but 1e-7
to p2, so it is not equidistant. -/
theorem midpoint_not_exact_mean :
    calculate_geometry (midCmd 0 0 (1/10^7) 0 "m") =
      ⟨[⟨"pM", "point", [.num 0, .num 0], [("name", .str "M"), ("color", .str "red")]⟩],
       midMsg ((0 + 1/10^7)/2) ((0 + 0)/2)⟩ ∧
    ((0:ℚ) ≠ (0 + 1/10^7)/2) ∧
    Real.sqrt ((0 - 0 : ℝ)^2 + (0 - 0 : ℝ)^2) ≠
      Real.sqrt ((1/10^7 - 0 : ℝ)^2 + (0 - 0 : ℝ)^2) := by
  have e0 : round6 ((0 + 0 : ℚ)/2) = 0 := by
    rw [round6_eq_of_near ((0 + 0 : ℚ)/2) 0 (by norm_num) (by norm_num)]; norm_num
  have em : round6 ((0 + 1/10^7 : ℚ)/2) = 0 := by
    rw [round6_eq_of_near ((0 + 1/10^7 : ℚ)/2) 0 (by norm_num) (by norm_num)]; norm_num
  refine ⟨?_, by norm_num, ?_⟩
  · calc calculate_geometry (midCmd 0 0 (1/10^7) 0 "m")
        = ⟨[⟨"pM", "point",
             [.num (round6 ((0 + 1/10^7)/2)), .num (round6 ((0 + 0)/2))],
             [("name", .str "M"), ("color", .str "red")]⟩],
           midMsg ((0 + 1/10^7)/2) ((0 + 0)/2)⟩ := rfl
      _ = _ := by rw [e0, em]
  · have hL : Real.sqrt ((0 - 0 : ℝ)^2 + (0 - 0 : ℝ)^2) = 0 := by
      norm_num
    have hR : (0:ℝ) < Real.sqrt ((1/10^7 - 0 : ℝ)^2 + (0 - 0 : ℝ)^2) :=
      Real.sqrt_pos.mpr (by norm_num)
    rw [hL]
    exact fun hc => absurd hc.symm (ne_of_gt hR)

/-! ## Branch shape lemmas -/

theorem calcTriangle_shape (data : List (String × Val)) :
    (calcTriangle data).els = [] ∨
    ∃ p1 p2 p3, (calcTriangle data).els = triElems p1 p2 p3 := by
  unfold calcTriangle
  cases hb : pyFloat (dget data "base_length" (.num 5)) with
  | error e => left; rfl
  | ok base =>
    simp only [tryStep]
    cases ha : pairFloats (dget data "anchor" (.vlist [.num 0, .num 0])) with
    | error e => left; rfl
    | ok p =>
      obtain ⟨ax, ay⟩ := p
      simp only [tryStep]
      cases ht : dget data "type" (.str "general") with
      | num q => right; exact ⟨_, _, _, rfl⟩
      | vlist l => right; exact ⟨_, _, _, rfl⟩
      | str t =>
        by_cases h1 : t = "equilateral"
        · simp only [h1, if_pos rfl]
          right; exact ⟨_, _, _, rfl⟩
        · by_cases h2 : t = "isosceles"
          · simp only [if_neg h1, h2, if_pos rfl]
            cases hh : pyFloat (dget data "height" (.num (base * (4/5)))) with
            | error e => left; rfl
            | ok height => simp only [tryStep]; right; exact ⟨_, _, _, rfl⟩
          · by_cases h3 : t = "right"
            · simp only [if_neg h1, if_neg h2, h3, if_pos rfl]
              cases hh : pyFloat (dget data "height" (.num (base * (3/4)))) with
              | error e => left; rfl
              | ok height => simp only [tryStep]; right; exact ⟨_, _, _, rfl⟩
            · simp only [if_neg h1, if_neg h2, if_neg h3]
              right; exact ⟨_, _, _, rfl⟩

theorem calcRectangle_shape (data : List (String × Val)) :
    (calcRectangle data).els = [] ∨
    ∃ ax ay w h, (calcRectangle data).els = quadElems "rect1" ax ay w h := by
  unfold calcRectangle
  cases hw : pyFloat (dget data "width" (.num 4)) with
  | error e => left; rfl
  | ok w =>
    simp only [tryStep]
    cases hh : pyFloat (dget data "height" (.num 3)) with
    | error e => left; rfl
    | ok h =>
      simp only [tryStep]
      cases ha : pairFloats (dget data "anchor" (.vlist [.num 0, .num 0])) with
      | error e => left; rfl
      | ok p =>
        obtain ⟨ax, ay⟩ := p
        simp only [tryStep]
        right; exact ⟨_, _, _, _, rfl⟩

theorem calcSquare_shape (data : List (String × Val)) :
    (calcSquare data).els = [] ∨
    ∃ ax ay s, (calcSquare data).els = quadElems "square1" ax ay s s := by
  unfold calcSquare
  cases hs : pyFloat (dget data "side" (.num 4)) with
  | error e => left; rfl
  | ok s =>
    simp only [tryStep]
    cases ha : pairFloats (dget data "anchor" (.vlist [.num 0, .num 0])) with
    | error e => left; rfl
    | ok p =>
      obtain ⟨ax, ay⟩ := p
      simp only [tryStep]
      right; exact ⟨_, _, _, rfl⟩

theorem calcMidpoint_shape (data : List (String × Val)) :
    (calcMidpoint data).els = [] ∨
    ∃ mx my, (calcMidpoint data).els =
      [⟨"pM", "point", [.num (round6 mx), .num (round6 my)],
        [("name", .str "M"), ("color", .str "red")]⟩] := by
  unfold calcMidpoint
  simp only []
  cases h1 : pairNums (dget data "point1" (.vlist [.num 0, .num 0])) with
  | error e => left; rfl
  | ok p =>
    obtain ⟨x1, y1⟩ := p
    simp only [tryStep]
    cases h2 : pairNums (dget data "point2" (.vlist [.num 1, .num 1])) with
    | error e => left; rfl
    | ok q =>
      obtain ⟨x2, y2⟩ := q
      simp only [tryStep]
      right; exact ⟨_, _, rfl⟩

theorem calcDistance_els (data : List (String × Val)) : (calcDistance data).els = [] := by
  unfold calcDistance
  simp only []
  cases h1 : pairNums (dget data "point1" (.vlist [.num 0, .num 0])) with
  | error e => rfl
  | ok p =>
    obtain ⟨x1, y1⟩ := p
    simp only [tryStep]
    cases h2 : pairNums (dget data "point2" (.vlist [.num 1, .num 1])) with
    | error e => rfl
    | ok q => obtain ⟨x2, y2⟩ := q; rfl

/-! ## Claim C7: which intents emit rounded point coordinates -/

/-- Every point coordinate in a triangle element list is a fixed point of
round6. -/
theorem triElems_rounded (p1 p2 p3 : ℚ × ℚ) :
    ∀ el ∈ triElems p1 p2 p3, el.type = "point" →
      ∀ q : ℚ, PVal.num q ∈ el.parents → round6 q = q := by
  intro el hel htype q hq
  simp only [triElems, mkPt, mkSeg, List.mem_cons, List.not_mem_nil, or_false] at hel
  rcases hel with h | h | h | h | h | h <;> subst h <;>
    simp only [List.mem_cons, List.not_mem_nil, or_false] at hq <;>
    [skip; skip; skip; exact absurd htype (by simp); exact absurd htype (by simp);
     exact absurd htype (by simp)] <;>
    rcases hq with h' | h' <;> injection h' with h'' <;> rw [h''] <;>
    exact round6_round6 _

/-- Every point coordinate in a rectangle/square element list is a fixed
point of round6. -/
theorem quadElems_rounded (pid : String) (ax ay w h : ℚ) :
    ∀ el ∈ quadElems pid ax ay w h, el.type = "point" →
      ∀ q : ℚ, PVal.num q ∈ el.parents → round6 q = q := by
  intro el hel htype q hq
  simp only [quadElems, mkPt, List.mem_cons, List.not_mem_nil, or_false] at hel
  rcases hel with h | h | h | h | h <;> subst h <;>
    simp only [List.mem_cons, List.not_mem_nil, or_false] at hq
  · rcases hq with h' | h' <;> injection h' with h'' <;> rw [h''] <;> exact round6_round6 _
  · rcases hq with h' | h' <;> injection h' with h'' <;> rw [h''] <;> exact round6_round6 _
  · rcases hq with h' | h' <;> injection h' with h'' <;> rw [h''] <;> exact round6_round6 _
  · rcases hq with h' | h' <;> injection h' with h'' <;> rw [h''] <;> exact round6_round6 _
  · rcases hq with h' | h' | h' | h' <;> exact absurd h' (by simp)

/-- C7 (amended): for the intents create_triangle, create_rectangle,
create_square and calculate_midpoint, every numeric coordinate in the
parents of an emitted point element is a fixed point of rounding to 6
fractional digits.  (create_point, create_polygon, create_line and
create_circle emit unrounded coordinates, see the counterexample.) -/
theorem rounding_intents_points_rounded (cmd : Command)
    (h : cmd.intent = "create_triangle" ∨ cmd.intent = "create_rectangle" ∨
         cmd.intent = "create_square" ∨ cmd.intent = "calculate_midpoint") :
    ∀ el ∈ (calculate_geometry cmd).elements, el.type = "point" →
      ∀ q : ℚ, PVal.num q ∈ el.parents → round6 q = q := by
  have hel : (calculate_geometry cmd).elements = (runIntent cmd.intent cmd.data).els := rfl
  rw [hel]
  rcases h with h | h | h | h <;> rw [h] <;> unfold runIntent <;>
    simp only [String.reduceEq, reduceIte]
  · rcases calcTriangle_shape cmd.data with hs | ⟨p1, p2, p3, hs⟩
    · rw [hs]; intro el hel'; exact absurd hel' (List.not_mem_nil el)
    · rw [hs]; exact triElems_rounded p1 p2 p3
  · rcases calcRectangle_shape cmd.data with hs | ⟨ax, ay, w, hh, hs⟩
    · rw [hs]; intro el hel'; exact absurd hel' (List.not_mem_nil el)
    · rw [hs]; exact quadElems_rounded "rect1" ax ay w hh
  · rcases calcSquare_shape cmd.data with hs | ⟨ax, ay, sd, hs⟩
    · rw [hs]; intro el hel'; exact absurd hel' (List.not_mem_nil el)
    · rw [hs]; exact quadElems_rounded "square1" ax ay sd sd
  · rcases calcMidpoint_shape cmd.data with hs | ⟨mx, my, hs⟩
    · rw [hs]; intro el hel'; exact absurd hel' (List.not_mem_nil el)
    · rw [hs]
      intro el hel' htype q hq
      simp only [List.mem_cons, List.not_mem_nil, or_false] at hel'
      subst hel'
      simp only [List.mem_cons, List.not_mem_nil, or_false] at hq
      rcases hq with h' | h' <;> injection h' with h'' <;> rw [h''] <;> exact round6_round6 _

/-- Counterexample to C7 as stated: create_point emits its coordinates
unrounded, so with x = 1e-7 the emitted coordinate is not a fixed point of
6-digit rounding. -/
theorem point_coordinate_not_rounded :
    calculate_geometry ⟨"create_point", [("x", .num (1/10^7)), ("y", .num 0)], "pt"⟩ =
      ⟨[⟨"pP", "point", [.num (1/10^7), .num 0], [("name", .str "P")]⟩], "pt"⟩ ∧
    round6 (1/10^7) ≠ 1/10^7 := by
  constructor
  · rfl
  · rw [round6_eq_of_near (1/10^7) 0 (by norm_num) (by norm_num)]
    norm_num

/-- Witness for C7 at a concrete create_square command: both hypotheses of
the amended theorem discharge and the emitted coordinates are rounding
fixed points. -/
theorem rounding_intents_points_rounded_wit :
    ((⟨"create_square", [("anchor", .vlist [.num 0, .num 0]), ("side", .num 4)],
        "sq"⟩ : Command).intent = "create_triangle" ∨
     (⟨"create_square", [("anchor", .vlist [.num 0, .num 0]), ("side", .num 4)],
        "sq"⟩ : Command).intent = "create_rectangle" ∨
     (⟨"create_square", [("anchor", .vlist [.num 0, .num 0]), ("side", .num 4)],
        "sq"⟩ : Command).intent = "create_square" ∨
     (⟨"create_square", [("anchor", .vlist [.num 0, .num 0]), ("side", .num 4)],
        "sq"⟩ : Command).intent = "calculate_midpoint") ∧
    (∀ el ∈ (calculate_geometry ⟨"create_square",
        [("anchor", .vlist [.num 0, .num 0]), ("side", .num 4)], "sq"⟩).elements,
      el.type = "point" → ∀ q : ℚ, PVal.num q ∈ el.parents → round6 q = q) :=
  ⟨Or.inr (Or.inr (Or.inl rfl)),
   rounding_intents_points_rounded
     ⟨"create_square", [("anchor", .vlist [.num 0, .num 0]), ("side", .num 4)], "sq"⟩
     (Or.inr (Or.inr (Or.inl rfl)))⟩

/-! ## Claim C10: point ids are determined by the display name -/

theorem calcPoint_shape (data : List (String × Val)) :
    (calcPoint data).els = [] ∨
    ∃ fx fy, (calcPoint data).els =
      [⟨"p" ++ (dget data "name" (.str "P")).pyStr, "point", [.num fx, .num fy],
        [("name", dget data "name" (.str "P"))]⟩] := by
  unfold calcPoint
  simp only []
  cases hx : pyFloat (dget data "x" (.num 0)) with
  | error e => left; rfl
  | ok fx =>
    simp only [tryStep]
    cases hy : pyFloat (dget data "y" (.num 0)) with
    | error e => left; rfl
    | ok fy => simp only [tryStep]; right; exact ⟨_, _, rfl⟩

theorem calcCircle_shape (data : List (String × Val)) :
    (calcCircle data).els = [] ∨
    ∃ cx cy r, (calcCircle data).els =
      [ ⟨"p" ++ (dget data "name" (.str "O")).pyStr, "point", [.num cx, .num cy],
          [("name", dget data "name" (.str "O"))]⟩
      , ⟨"circle_" ++ (dget data "name" (.str "O")).pyStr, "circle",
          [.str ("p" ++ (dget data "name" (.str "O")).pyStr), .num r], []⟩ ] := by
  unfold calcCircle
  simp only []
  cases hr : pyFloat (dget data "radius" (.num 3)) with
  | error e => left; rfl
  | ok r =>
    simp only [tryStep]
    cases hc : pairFloats (dget data "center" (.vlist [.num 0, .num 0])) with
    | error e => left; rfl
    | ok p =>
      obtain ⟨cx, cy⟩ := p
      simp only [tryStep]
      right; exact ⟨_, _, _, rfl⟩

theorem calcLine_shape (data : List (String × Val)) :
    (calcLine data).els = [] ∨
    (∃ x1 y1, (calcLine data).els =
      [⟨"pP1", "point", [.num x1, .num y1], [("name", .str "P1")]⟩]) ∨
    (∃ x1 y1 x2 y2, (calcLine data).els =
      [ ⟨"pP1", "point", [.num x1, .num y1], [("name", .str "P1")]⟩
      , ⟨"pP2", "point", [.num x2, .num y2], [("name", .str "P2")]⟩
      , ⟨"line1", "line", [.str "pP1", .str "pP2"], []⟩ ]) := by
  unfold calcLine
  simp only []
  cases h1 : pairFloats (dget data "point1" (.vlist [.num 0, .num 0])) with
  | error e => left; rfl
  | ok p =>
    obtain ⟨x1, y1⟩ := p
    simp only [tryStep]
    cases h2 : pairFloats (dget data "point2" (.vlist [.num 1, .num 1])) with
    | error e => right; left; exact ⟨_, _, rfl⟩
    | ok q =>
      obtain ⟨x2, y2⟩ := q
      right; right; exact ⟨_, _, _, _, rfl⟩

theorem polyLoop_points (vs : List Val) :
    ∀ ns, ∀ el ∈ (polyLoop vs ns).1, ∃ n x y, el = mkPt n x y := by
  induction vs with
  | nil => intro ns el hel; simp [polyLoop] at hel
  | cons v vs ih =>
    intro ns el hel
    cases ns with
    | nil => simp [polyLoop] at hel
    | cons n ns =>
      unfold polyLoop at hel
      cases hp : pairFloats v with
      | error e => rw [hp] at hel; simp at hel
      | ok p =>
        obtain ⟨x, y⟩ := p
        rw [hp] at hel
        simp only [List.mem_cons] at hel
        rcases hel with h | h
        · exact ⟨n, x, y, h⟩
        · exact ih ns el h

theorem calcPolygon_points (data : List (String × Val)) :
    ∀ el ∈ (calcPolygon data).els, el.type = "point" → ∃ n x y, el = mkPt n x y := by
  unfold calcPolygon
  simp only []
  cases hv : pyElems (dget data "vertices" (.vlist [])) with
  | error e => simp [tryStep]
  | ok vs =>
    simp only [tryStep]
    cases hn : (if (dget data "names" (.vlist [])).truthy
        then nameSeq (dget data "names" (.vlist []))
        else autoNames vs.length) with
    | error e => simp [tryStep]
    | ok ns =>
      simp only [tryStep]
      cases hl : polyLoop vs ns with
      | mk pts err? =>
        have hpts : ∀ el ∈ pts, ∃ n x y, el = mkPt n x y := by
          intro el hel
          have hml := polyLoop_points vs ns el
          rw [hl] at hml
          exact hml hel
        cases err? with
        | some e =>
          intro el hel _
          exact hpts el hel
        | none =>
          intro el hel htype
          simp only [List.mem_append, List.mem_cons, List.not_mem_nil,
            or_false] at hel
          rcases hel with h | h
          · exact hpts el h
          · subst h; exact absurd htype (by simp)

theorem triElems_names (p1 p2 p3 : ℚ × ℚ) :
    ∀ el ∈ triElems p1 p2 p3, el.type = "point" →
      ∃ v, el.props.lookup "name" = some v ∧ el.id = "p" ++ v.pyStr := by
  intro el hel htype
  simp only [triElems, mkPt, mkSeg, List.mem_cons, List.not_mem_nil, or_false] at hel
  rcases hel with h | h | h | h | h | h <;> subst h <;>
    first
      | exact ⟨_, rfl, rfl⟩
      | exact absurd htype (by simp)

theorem quadElems_names (pid : String) (ax ay w h : ℚ) :
    ∀ el ∈ quadElems pid ax ay w h, el.type = "point" →
      ∃ v, el.props.lookup "name" = some v ∧ el.id = "p" ++ v.pyStr := by
  intro el hel htype
  simp only [quadElems, mkPt, List.mem_cons, List.not_mem_nil, or_false] at hel
  rcases hel with h | h | h | h | h <;> subst h <;>
    first
      | exact ⟨_, rfl, rfl⟩
      | exact absurd htype (by simp)

theorem runIntent_points_named (intent : String) (data : List (String × Val)) :
    ∀ el ∈ (runIntent intent data).els, el.type = "point" →
      ∃ v, el.props.lookup "name" = some v ∧ el.id = "p" ++ v.pyStr := by
  unfold runIntent
  split_ifs with h1 h2 h3 h4 h5 h6 h7 h8 h9
  · rcases calcPoint_shape data with hs | ⟨fx, fy, hs⟩ <;> rw [hs]
    · simp
    · intro el hel htype
      simp only [List.mem_cons, List.not_mem_nil, or_false] at hel
      subst hel
      exact ⟨_, rfl, rfl⟩
  · rcases calcTriangle_shape data with hs | ⟨p1, p2, p3, hs⟩ <;> rw [hs]
    · simp
    · exact triElems_names p1 p2 p3
  · rcases calcCircle_shape data with hs | ⟨cx, cy, r, hs⟩ <;> rw [hs]
    · simp
    · intro el hel htype
      simp only [List.mem_cons, List.not_mem_nil, or_false] at hel
      rcases hel with h | h <;> subst h
      · exact ⟨_, rfl, rfl⟩
      · exact absurd htype (by simp)
  · rcases calcRectangle_shape data with hs | ⟨ax, ay, w, hh, hs⟩ <;> rw [hs]
    · simp
    · exact quadElems_names "rect1" ax ay w hh
  · rcases calcSquare_shape data with hs | ⟨ax, ay, sd, hs⟩ <;> rw [hs]
    · simp
    · exact quadElems_names "square1" ax ay sd sd
  · intro el hel htype
    obtain ⟨n, x, y, h⟩ := calcPolygon_points data el hel htype
    subst h
    exact ⟨n, rfl, rfl⟩
  · rcases calcLine_shape data with hs | ⟨x1, y1, hs⟩ | ⟨x1, y1, x2, y2, hs⟩ <;> rw [hs]
    · simp
    · intro el hel htype
      simp only [List.mem_cons, List.not_mem_nil, or_false] at hel
      subst hel
      exact ⟨_, rfl, rfl⟩
    · intro el hel htype
      simp only [List.mem_cons, List.not_mem_nil, or_false] at hel
      rcases hel with h | h | h <;> subst h
      · exact ⟨_, rfl, rfl⟩
      · exact ⟨_, rfl, rfl⟩
      · exact absurd htype (by simp)
  · rw [calcDistance_els]
    simp
  · rcases calcMidpoint_shape data with hs | ⟨mx, my, hs⟩ <;> rw [hs]
    · simp
    · intro el hel htype
      simp only [List.mem_cons, List.not_mem_nil, or_false] at hel
      subst hel
      exact ⟨.str "M", rfl, rfl⟩
  · simp

/-- C10: for every input command and every element of type point emitted by
calculate_geometry, the element's id is the string p concatenated with the
textual form of the value stored under name in its props, so a point's id
is fully determined by its display name. -/
theorem point_id_is_p_name (cmd : Command) :
    ∀ el ∈ (calculate_geometry cmd).elements, el.type = "point" →
      ∃ v, el.props.lookup "name" = some v ∧ el.id = "p" ++ v.pyStr :=
  runIntent_points_named cmd.intent cmd.data

/-- Witness for C10: the point named O of a concrete create_point command
has id pO. -/
theorem point_id_is_p_name_wit :
    (⟨"pO", "point", [.num 2, .num 4], [("name", .str "O")]⟩ : Element) ∈
      (calculate_geometry ⟨"create_point",
        [("x", .num 2), ("y", .num 4), ("name", .str "O")], "o"⟩).elements ∧
    ∃ v, (⟨"pO", "point", [.num 2, .num 4], [("name", .str "O")]⟩ : Element).props.lookup
        "name" = some v ∧
      (⟨"pO", "point", [.num 2, .num 4], [("name", .str "O")]⟩ : Element).id =
        "p" ++ v.pyStr :=
  ⟨List.mem_singleton.mpr rfl,
   point_id_is_p_name
     ⟨"create_point", [("x", .num 2), ("y", .num 4), ("name", .str "O")], "o"⟩
     ⟨"pO", "point", [.num 2, .num 4], [("name", .str "O")]⟩
     (List.mem_singleton.mpr rfl) rfl⟩

/-! ## Claim C5: internal faults are caught and reported -/

/-- C5: calculate_geometry is total: every input command yields a plain
result dictionary (first conjunct); whenever the dispatched branch ends in
an internal exception, the result keeps the elements appended before the
fault and reports the error in the explanation instead of propagating it
(second conjunct); in particular a list value in the numeric x field of
create_point is caught as a float coercion fault and reported (third
conjunct). -/
theorem internal_faults_caught :
    (∀ cmd : Command, ∃ els expl, calculate_geometry cmd = ⟨els, expl⟩) ∧
    (∀ (cmd : Command) (e : PyErr), (runIntent cmd.intent cmd.data).err? = some e →
      calculate_geometry cmd =
        ⟨(runIntent cmd.intent cmd.data).els, "계산 오류: " ++ e.msg⟩) ∧
    (∀ (l : List Val) (d : List (String × Val)) (expl : String),
      calculate_geometry ⟨"create_point", ("x", .vlist l) :: d, expl⟩ =
        ⟨[], "계산 오류: " ++ PyErr.typeError.msg⟩) := by
  refine ⟨fun cmd => ⟨_, _, rfl⟩, ?_, fun l d expl => rfl⟩
  intro cmd e he
  unfold calculate_geometry
  simp only []
  rw [he]

/-- Witness for C5: a concrete faulting command (list in the x field). -/
theorem internal_faults_caught_wit :
    (runIntent (⟨"create_point", [("x", .vlist [])], "e"⟩ : Command).intent
        (⟨"create_point", [("x", .vlist [])], "e"⟩ : Command).data).err? =
      some PyErr.typeError ∧
    calculate_geometry ⟨"create_point", [("x", .vlist [])], "e"⟩ =
      ⟨(runIntent (⟨"create_point", [("x", .vlist [])], "e"⟩ : Command).intent
          (⟨"create_point", [("x", .vlist [])], "e"⟩ : Command).data).els,
       "계산 오류: " ++ PyErr.typeError.msg⟩ :=
  ⟨rfl, internal_faults_caught.2.1 ⟨"create_point", [("x", .vlist [])], "e"⟩
    PyErr.typeError rfl⟩

/-! ## Claim C4: the Output Sanitizer (spec-modelled) -/

/-- C4 (amended, spec-modelled): any element with a reference slot holding
a string containing a denylisted substring is absent from the sanitized
output; any element all of whose reference slots are numbers or
identifier-shaped strings free of denylisted substrings is kept (unchanged,
since the sanitizer is a filter); the output is always a sublist of the
input, so the other retained elements appear unchanged and in order. -/
theorem sanitizer_drop_keep :
    (∀ (l : List Element) (el : Element), el ∈ l →
      (∃ s, PVal.str s ∈ el.parents ∧ suspectStr s = true) →
      el ∉ sanitizeElements l) ∧
    (∀ (l : List Element) (el : Element), el ∈ l →
      (∀ p ∈ el.parents, (∃ q, p = PVal.num q) ∨
        (∃ s, p = PVal.str s ∧ isIdentStr s = true ∧ suspectStr s = false)) →
      el ∈ sanitizeElements l) ∧
    (∀ l : List Element, (sanitizeElements l).Sublist l) := by
  refine ⟨?_, ?_, fun l => List.filter_sublist l⟩
  · intro l el _ ⟨s, hs, hsus⟩ hmem
    rw [sanitizeElements, List.mem_filter] at hmem
    have htaint : elementTainted el = true := by
      rw [elementTainted, List.any_eq_true]
      exact ⟨.str s, hs, by simpa [pvalSuspect] using hsus⟩
    rw [htaint] at hmem
    simp at hmem
  · intro l el hel hok
    rw [sanitizeElements, List.mem_filter]
    refine ⟨hel, ?_⟩
    have htaint : elementTainted el = false := by
      rw [elementTainted, List.any_eq_false]
      intro p hp
      rcases hok p hp with ⟨q, hq⟩ | ⟨s, hq, _, hsus⟩ <;> subst hq
      · simp [pvalSuspect]
      · simpa [pvalSuspect] using hsus
    rw [htaint]
    rfl

/-- Counterexample to C4 as stated: the string xfunction is
identifier-shaped, yet it contains the denylisted substring function, so an
element referencing it is dropped rather than preserved. -/
theorem identifier_shaped_still_dropped :
    isIdentStr "xfunction" = true ∧
    sanitizeElements [⟨"x1", "point", [.str "xfunction"], []⟩] = [] :=
  ⟨rfl, rfl⟩

/-- Witness for C4 at the spec's end-to-end scenario: the element whose
slot holds an arrow-function payload is dropped while the well-formed
element in the same list is retained. -/
theorem sanitizer_drop_keep_wit :
    (⟨"x1", "point", [.str "(a)=>\x7breturn 1\x7d", .num 2], []⟩ : Element) ∉
      sanitizeElements
        [⟨"x1", "point", [.str "(a)=>\x7breturn 1\x7d", .num 2], []⟩,
         ⟨"pA", "point", [.num 0, .num 1], []⟩] ∧
    (⟨"pA", "point", [.num 0, .num 1], []⟩ : Element) ∈
      sanitizeElements
        [⟨"x1", "point", [.str "(a)=>\x7breturn 1\x7d", .num 2], []⟩,
         ⟨"pA", "point", [.num 0, .num 1], []⟩] :=
  ⟨sanitizer_drop_keep.1 _ _ (List.mem_cons_self _ _)
      ⟨"(a)=>\x7breturn 1\x7d", List.mem_cons_self _ _, rfl⟩,
   sanitizer_drop_keep.2.1 _ _ (List.mem_cons_of_mem _ (List.mem_cons_self _ _))
      (by
        intro p hp
        simp only [List.mem_cons, List.not_mem_nil, or_false] at hp
        rcases hp with h | h <;> subst h
        · exact Or.inl ⟨0, rfl⟩
        · exact Or.inl ⟨1, rfl⟩)⟩

/-! ## Claim C8: create_polygon auto-naming -/

theorem polyLoop_auto (vs : List (ℚ × ℚ)) :
    ∀ i0, polyLoop (vs.map fun p => Val.vlist [.num p.1, .num p.2])
      ((List.range' i0 vs.length).map fun i => Val.str (pychr (65 + i))) =
      (autoPts vs i0, none) := by
  induction vs with
  | nil => intro i0; rfl
  | cons p rest ih =>
    intro i0
    have hr : List.range' i0 (p :: rest).length = i0 :: List.range' (i0 + 1) rest.length := by
      rw [List.length_cons, List.range'_succ]
    rw [hr]
    simp only [List.map_cons, polyLoop, autoPts]
    rw [ih (i0 + 1)]
    rfl

/-- C8 (amended): for a create_polygon intent whose names entry is absent
and whose vertices are a non-empty list of at most 1114047 numeric pairs,
calculate_geometry auto-names the points from codepoint 65 (A, B, C, ...),
emitting one point per vertex in input order followed by one polygon
element referencing all the point ids in that order, with the input
explanation passed through; this case is not an error.  (When names is
provided but shorter than vertices the branch faults instead; see the
counterexample.) -/
theorem polygon_auto_names (vs : List (ℚ × ℚ)) (expl : String)
    (_hne : vs ≠ []) (hlen : vs.length ≤ 1114047) :
    calculate_geometry ⟨"create_polygon", [("vertices", vertsVal vs)], expl⟩ =
      ⟨autoPts vs 0 ++
        [⟨"polygon1", "polygon",
          (List.range vs.length).map fun i => .str ("p" ++ pychr (65 + i)), []⟩], expl⟩ := by
  have hauto : autoNames (vs.map fun p => Val.vlist [.num p.1, .num p.2]).length =
      .ok ((List.range vs.length).map fun i => Val.str (pychr (65 + i))) := by
    rw [List.length_map, autoNames, if_pos (by omega)]
  have hloop := polyLoop_auto vs 0
  rw [← List.range_eq_range'] at hloop
  have hcp : calcPolygon [("vertices", vertsVal vs)] =
      ⟨autoPts vs 0 ++ [⟨"polygon1", "polygon",
        (List.range vs.length).map fun i => .str ("p" ++ pychr (65 + i)), []⟩],
       none, none⟩ := by
    unfold calcPolygon
    simp only []
    simp only [show dget [("vertices", vertsVal vs)] "vertices" (.vlist []) = vertsVal vs
        from rfl,
      show dget [("vertices", vertsVal vs)] "names" (.vlist []) = Val.vlist [] from rfl,
      show pyElems (vertsVal vs) = .ok (vs.map fun p => Val.vlist [.num p.1, .num p.2])
        from rfl,
      show Val.truthy (.vlist []) = false from rfl,
      tryStep, reduceIte, Bool.false_eq_true, hauto, hloop]
    rw [List.map_map]
    rfl
  have hgeo : calculate_geometry ⟨"create_polygon", [("vertices", vertsVal vs)], expl⟩ =
      ⟨(calcPolygon [("vertices", vertsVal vs)]).els,
       ((calcPolygon [("vertices", vertsVal vs)]).expl?).getD expl⟩ := by
    unfold calculate_geometry runIntent
    simp only [String.reduceEq, reduceIte, hcp]
  rw [hgeo, hcp]
  rfl

/-- Counterexample to C8 as stated: with three vertices and the provided
names list ["A"] (non-empty but shorter than the vertices), the branch does
not auto-fill the missing names: it faults with an index error after
emitting only the first point, so neither one-point-per-vertex nor the
never-an-error part holds for the shorter-names case. -/
theorem polygon_short_names_faults :
    calculate_geometry ⟨"create_polygon",
      [("vertices", .vlist [.vlist [.num 0, .num 0], .vlist [.num 1, .num 0],
          .vlist [.num 0, .num 1]]),
       ("names", .vlist [.str "A"])], "pg"⟩ =
      ⟨[⟨"pA", "point", [.num 0, .num 0], [("name", .str "A")]⟩],
       "계산 오류: " ++ PyErr.indexError.msg⟩ := rfl

/-- Witness for C8 at a concrete triangle-shaped polygon with names
absent. -/
theorem polygon_auto_names_wit :
    ([((0:ℚ), (0:ℚ)), (4, 0), (2, 3)] : List (ℚ × ℚ)) ≠ [] ∧
    ([((0:ℚ), (0:ℚ)), (4, 0), (2, 3)] : List (ℚ × ℚ)).length ≤ 1114047 ∧
    calculate_geometry ⟨"create_polygon",
        [("vertices", vertsVal [(0, 0), (4, 0), (2, 3)])], "pg"⟩ =
      ⟨autoPts [(0, 0), (4, 0), (2, 3)] 0 ++
        [⟨"polygon1", "polygon",
          (List.range ([((0:ℚ), (0:ℚ)), (4, 0), (2, 3)] : List (ℚ × ℚ)).length).map
            fun i => .str ("p" ++ pychr (65 + i)), []⟩], "pg"⟩ :=
  ⟨by simp, by simp,
   polygon_auto_names [(0, 0), (4, 0), (2, 3)] "pg" (by simp) (by simp)⟩

/-! ## Claim C6: scene-graph well-formedness -/

/-- A string-valued names is indexed character by character, so names "AA"
over two vertices emits two points that share the id pA (plus polygon1): a
second shape of badPolyNames input on which the well-formedness invariant
really breaks in the program. -/
theorem string_names_duplicate_ids :
    (calculate_geometry ⟨"create_polygon",
      [("vertices", .vlist [.vlist [.num 0, .num 0], .vlist [.num 1, .num 0]]),
       ("names", .str "AA")], ""⟩).elements.map Element.id =
      ["pA", "pA", "polygon1"] ∧
    ¬ WFScene (calculate_geometry ⟨"create_polygon",
      [("vertices", .vlist [.vlist [.num 0, .num 0], .vlist [.num 1, .num 0]]),
       ("names", .str "AA")], ""⟩).elements := by
  constructor
  · rfl
  · decide
